import Mathlib

/-!
# Verification of the reisen media-decoding orchestration layer

Shallow embedding of the Go sources of `erparts/reisen` (media container
demultiplexing, per-stream decode state machine, bitstream filtering and
post-decode conversion) together with proofs about the embedded
definitions.

Native calls (libav*) are black boxes: each embedded operation takes the
outcomes of the native calls it performs (status codes, allocation
success flags, produced payloads) as explicit inputs, and the embedding
reproduces the Go control flow over those outcomes.  Machine integers
are modelled as `Int` with explicit two's-complement wrapping where the
Go code multiplies 64-bit values.  Reusable native buffers are modelled
by an explicit heap of numbered buffers so that copying versus aliasing
is observable.
-/

namespace Reisen

/-- Modelled from the spec: the repository's `ErrorAgain` constant is defined
in a Go file not present under `src/` (only its uses in `media.go` and the
stream code are).  Per the spec, a specific numeric native status code means
"try again"; this is `AVERROR(EAGAIN)`, which is `-11` on Linux.  The proofs
only ever compare a status against this constant, never use its magnitude. -/
def ErrorAgain : Int := -11

/-! ## Packet (src/unnamed/part_002, `newPacket`) -/

/-- The fields of a native `AVPacket` that `newPacket` reads. -/
structure AVPacket where
  stream_index : Int
  data : Option (List Nat)
  pts : Int
  dts : Int
  pos : Int
  duration : Int
  size : Int
  flags : Int
deriving Repr, DecidableEq

/-- `Packet` value object from src/unnamed/part_002. -/
structure Packet where
  streamIndex : Int
  data : List Nat
  pts : Int
  dts : Int
  pos : Int
  duration : Int
  size : Int
  flags : Int
deriving Repr, DecidableEq

/-- `newPacket` from src/unnamed/part_002: copies the scalar fields and, when
the native packet has data and a positive size, copies the payload bytes
(`C.GoBytes`) into the Go-owned value. -/
def newPacket (cPkt : AVPacket) : Packet :=
  { streamIndex := cPkt.stream_index
    pts := cPkt.pts
    dts := cPkt.dts
    pos := cPkt.pos
    duration := cPkt.duration
    size := cPkt.size
    flags := cPkt.flags
    data := if cPkt.data ≠ none ∧ 0 < cPkt.size then cPkt.data.getD [] else [] }

/-! ## Media.ReadPacket (src/media.go, lines 238-273) -/

/-- Errors `Media.ReadPacket` can build (each carries the native status). -/
inductive ReadPacketError
  | refPacket (status : Int)
  | bsfSend (status : Int)
  | bsfReceive (status : Int)
deriving Repr, DecidableEq

/-- Outcomes of the native calls one `Media.ReadPacket` invocation makes:
the `av_read_frame` status and the raw packet it fills, whether the owning
stream has an active bitstream filter, and (when it does) the statuses of
`av_packet_ref` / `av_bsf_send_packet` / `av_bsf_receive_packet` and the
filtered packet produced. -/
structure ReadPacketEnv where
  readStatus : Int
  rawPacket : AVPacket
  hasFilter : Bool
  refStatus : Int
  bsfSendStatus : Int
  bsfReceiveStatus : Int
  filteredPacket : AVPacket
deriving Repr, DecidableEq

/-- `Media.ReadPacket` from src/media.go: on a negative `av_read_frame`
status it returns `(nil, true, nil)` when the status is `ErrorAgain` and
`(nil, false, nil)` otherwise; on success, if the owning stream has an
active filter the packet is referenced into the filter, pushed and pulled,
with any negative filter status returned as a populated error, and the
resulting packet (filtered or raw) is wrapped via `newPacket`. -/
def Media.ReadPacket (e : ReadPacketEnv) :
    Option Packet × Bool × Option ReadPacketError :=
  if e.readStatus < 0 then
    if e.readStatus = ErrorAgain then (none, true, none)
    else (none, false, none)
  else
    if e.hasFilter then
      if e.refStatus < 0 then (none, false, some (.refPacket e.refStatus))
      else if e.bsfSendStatus < 0 then (none, false, some (.bsfSend e.bsfSendStatus))
      else if e.bsfReceiveStatus < 0 then
        (none, false, some (.bsfReceive e.bsfReceiveStatus))
      else (some (newPacket e.filteredPacket), true, none)
    else (some (newPacket e.rawPacket), true, none)

/-- A concrete all-zero native packet, used for closed evaluations. -/
def pkt0 : AVPacket :=
  { stream_index := 0, data := none, pts := 0, dts := 0, pos := 0
    duration := 0, size := 0, flags := 0 }

/-! ## baseFrame.PresentationOffset (src/unnamed/part_000, lines 33-36) -/

/-- Two's-complement wrapping of an integer into the signed 64-bit range,
the semantics of Go's `int64` (and `time.Duration`) arithmetic. -/
def wrap64 (x : Int) : Int := (x + 2 ^ 63) % 2 ^ 64 - 2 ^ 63

/-- Go `int64` multiplication: multiply, then wrap. -/
def goMul64 (a b : Int) : Int := wrap64 (a * b)

/-- Go `int64` quotient: truncated toward zero, then wrapped (the wrap only
matters for the `MinInt64 / -1` corner). -/
def goQuo64 (a b : Int) : Int := wrap64 (Int.tdiv a b)

/-- `time.Second` expressed in `time.Duration` units (nanoseconds). -/
def timeSecond : Int := 1000000000

/-- `baseFrame.PresentationOffset` from src/unnamed/part_000 (the exact
integer-arithmetic version, duplicated in the second copy inside
src/frame.go): `time.Second * Duration(tbNum) * Duration(pts) / Duration(tbDen)`,
evaluated left-to-right in Go `int64` arithmetic. -/
def baseFrame.PresentationOffset (pts tbNum tbDen : Int) : Int :=
  goQuo64 (goMul64 (goMul64 timeSecond tbNum) pts) tbDen

theorem wrap64_eq_self {x : Int} (h : |x| < 2 ^ 63) : wrap64 x = x := by
  have h1 : -(2 ^ 63) ≤ x := by
    have := abs_lt.mp h
    omega
  have h2 : x < 2 ^ 63 := (abs_lt.mp h).2
  unfold wrap64
  have hlo : (0 : Int) ≤ x + 2 ^ 63 := by omega
  have hhi : x + 2 ^ 63 < 2 ^ 64 := by omega
  rw [Int.emod_eq_of_lt hlo hhi]
  omega

/-! ## Theorems for claim C1 -/

/-- C1 counterexample: at a genuine native read failure (status `-5`, which
is negative and distinct from `ErrorAgain`), `Media.ReadPacket` returns
`(nil, false, nil)` — the error component is `none`, not a populated error
as the claim states. -/
theorem readPacket_genuine_failure_no_error :
    ((-5 : Int) < 0 ∧ (-5 : Int) ≠ ErrorAgain) ∧
      Media.ReadPacket
        { readStatus := -5, rawPacket := pkt0, hasFilter := false
          refStatus := 0, bsfSendStatus := 0, bsfReceiveStatus := 0
          filteredPacket := pkt0 } = (none, false, none) := by
  constructor
  · constructor
    · decide
    · decide
  · rfl

/-- C1 (amended): on a negative native read status, `Media.ReadPacket`
returns `(nil, true, nil)` when the status is the transient try-again code
and `(nil, false, nil)` for every other negative status — genuine read
failures are conflated with end-of-stream and never produce a populated
error; populated errors arise only on the bitstream-filter path. -/
theorem readPacket_negative_read_tristate (e : ReadPacketEnv)
    (h : e.readStatus < 0) :
    Media.ReadPacket e =
      (if e.readStatus = ErrorAgain then (none, true, none)
       else (none, false, none)) := by
  unfold Media.ReadPacket
  rw [if_pos h]

/-- Witness for C1's amended theorem at concrete inputs: try-again status
`-11` yields `(nil, true, nil)` and a genuine failure status `-5` yields
`(nil, false, nil)`. -/
theorem readPacket_negative_read_tristate_witness :
    Media.ReadPacket
      { readStatus := ErrorAgain, rawPacket := pkt0, hasFilter := false
        refStatus := 0, bsfSendStatus := 0, bsfReceiveStatus := 0
        filteredPacket := pkt0 } = (none, true, none) ∧
    Media.ReadPacket
      { readStatus := -5, rawPacket := pkt0, hasFilter := false
        refStatus := 0, bsfSendStatus := 0, bsfReceiveStatus := 0
        filteredPacket := pkt0 } = (none, false, none) := by
  constructor
  · rw [readPacket_negative_read_tristate _ (by decide)]
    decide
  · rw [readPacket_negative_read_tristate _ (by decide)]
    decide

/-! ## Theorems for claim C2 -/

/-- C2: for a frame with pts `p` on a stream with time base `n/d` (positive
denominator), when the Go `int64` products do not overflow and the exact
value `p * (n/d)` seconds is representable in nanoseconds (`d` divides
`10^9 * n * p`), `PresentationOffset` returns exactly that value: the
returned duration times `d` equals `10^9 * n * p` nanoseconds.  The
computation is integer-only — no floating point is involved. -/
theorem presentationOffset_exact (pts tbNum tbDen : Int)
    (hden : 0 < tbDen)
    (h1 : |timeSecond * tbNum| < 2 ^ 63)
    (h2 : |timeSecond * tbNum * pts| < 2 ^ 63)
    (hdvd : tbDen ∣ timeSecond * tbNum * pts) :
    baseFrame.PresentationOffset pts tbNum tbDen * tbDen =
      timeSecond * tbNum * pts := by
  obtain ⟨c, hc⟩ := hdvd
  unfold baseFrame.PresentationOffset goQuo64 goMul64
  rw [wrap64_eq_self h1, wrap64_eq_self h2, hc]
  rw [Int.mul_tdiv_cancel_left c (by omega)]
  have hcabs : |c| < 2 ^ 63 := by
    rw [hc] at h2
    rw [abs_mul] at h2
    have hd1 : (1 : Int) ≤ |tbDen| := by
      rw [Int.abs_eq_natAbs]
      omega
    nlinarith [abs_nonneg c, abs_nonneg tbDen]
  rw [wrap64_eq_self hcabs]
  rw [mul_comm]

/-- Witness for C2 at the spec's scenario: time base `1/25`, pts `50`.
Applying the theorem gives exactness, and evaluating the definition gives
`2000000000` nanoseconds, i.e. `2.0` seconds. -/
theorem presentationOffset_exact_witness :
    baseFrame.PresentationOffset 50 1 25 * 25 = timeSecond * 1 * 50 ∧
      baseFrame.PresentationOffset 50 1 25 = 2000000000 := by
  constructor
  · exact presentationOffset_exact 50 1 25 (by decide) (by decide) (by decide)
      (by decide)
  · decide

/-! ## baseStream.open / VideoStream.OpenDecode (src/videoframe.go 362-383,
src/unnamed/part_001 50-94) -/

/-- Typed errors of the open/OpenDecode path (each carries the native
status where the Go code formats one). -/
inductive OpenError
  | allocCodecCtx
  | paramsToContext (status : Int)
  | openCodec (status : Int)
  | allocFrame
  | allocRGBAFrame
  | getBufferSize (status : Int)
  | allocAVBuffer
  | fillArrays (status : Int)
  | allocSWSContext
deriving Repr, DecidableEq

/-- Outcomes of the native calls `baseStream.open` makes, in order. -/
structure OpenEnv where
  allocCtxOk : Bool
  paramsStatus : Int
  open2Status : Int
  frameAllocOk : Bool
deriving Repr, DecidableEq

/-- Which of the shared decode resources are currently allocated, plus the
`opened` flag. -/
structure BaseStreamRes where
  codecCtx : Bool
  frame : Bool
  opened : Bool
deriving Repr, DecidableEq

/-- `baseStream.open` from src/videoframe.go: allocates the codec context,
copies the stream parameters into it, opens the codec, allocates the
reusable decode-target frame, and sets `opened`.  The Go code frees
nothing on its failure paths. -/
def baseStream.open (e : OpenEnv) : BaseStreamRes × Option OpenError :=
  if ¬ e.allocCtxOk then
    ({ codecCtx := false, frame := false, opened := false }, some .allocCodecCtx)
  else if e.paramsStatus < 0 then
    ({ codecCtx := true, frame := false, opened := false },
      some (.paramsToContext e.paramsStatus))
  else if e.open2Status < 0 then
    ({ codecCtx := true, frame := false, opened := false },
      some (.openCodec e.open2Status))
  else if ¬ e.frameAllocOk then
    ({ codecCtx := true, frame := false, opened := false }, some .allocFrame)
  else
    ({ codecCtx := true, frame := true, opened := true }, none)

/-- Outcomes of the native calls `VideoStream.OpenDecode` makes after the
shared `open`. -/
structure OpenDecodeEnv where
  base : OpenEnv
  rgbaAllocOk : Bool
  bufSizeStatus : Int
  bufAllocOk : Bool
  fillStatus : Int
  swsOk : Bool
deriving Repr, DecidableEq

/-- Which video-stream resources are allocated after `OpenDecode`. -/
structure VideoStreamRes where
  base : BaseStreamRes
  rgbaFrame : Bool
  rgbaBuf : Bool
  swsCtx : Bool
deriving Repr, DecidableEq

/-- `VideoStream.OpenDecode` from src/unnamed/part_001: runs the shared
`open`, then allocates the RGBA frame, computes the buffer size, allocates
the backing buffer, fills the image arrays, and builds the scaler context.
Its own failure paths free the RGBA frame (and, after the fill step, the
buffer), exactly as the Go code does — and nothing else. -/
def VideoStream.OpenDecode (e : OpenDecodeEnv) : VideoStreamRes × Option OpenError :=
  match baseStream.open e.base with
  | (b, some err) =>
    ({ base := b, rgbaFrame := false, rgbaBuf := false, swsCtx := false }, some err)
  | (b, none) =>
    if ¬ e.rgbaAllocOk then
      ({ base := b, rgbaFrame := false, rgbaBuf := false, swsCtx := false },
        some .allocRGBAFrame)
    else if e.bufSizeStatus < 0 then
      ({ base := b, rgbaFrame := false, rgbaBuf := false, swsCtx := false },
        some (.getBufferSize e.bufSizeStatus))
    else if ¬ e.bufAllocOk then
      ({ base := b, rgbaFrame := false, rgbaBuf := false, swsCtx := false },
        some .allocAVBuffer)
    else if e.fillStatus < 0 then
      ({ base := b, rgbaFrame := false, rgbaBuf := false, swsCtx := false },
        some (.fillArrays e.fillStatus))
    else if ¬ e.swsOk then
      ({ base := b, rgbaFrame := false, rgbaBuf := false, swsCtx := false },
        some .allocSWSContext)
    else
      ({ base := b, rgbaFrame := true, rgbaBuf := true, swsCtx := true }, none)

/-! ## baseStream.read and ReadFrame (src/videoframe.go 386-421,
src/unnamed/part_001 102-130, src/unnamed/part_000 128-182) -/

/-- Errors the decode read path can produce. -/
inductive DecodeError
  | sendPacket (status : Int)
  | receiveFrame (status : Int)
deriving Repr, DecidableEq

/-- Native statuses of the two decode calls one `read` makes. -/
structure ReadEnv where
  sendStatus : Int
  receiveStatus : Int
deriving Repr, DecidableEq

/-- `baseStream.read` from src/videoframe.go, as `(ok, skip, err)`:
a negative send status is an error; a negative receive status equal to
`ErrorAgain` sets the transient `skip` flag and succeeds; any other
negative receive status is an error; otherwise a frame was produced and
`skip` is cleared. -/
def baseStream.read (e : ReadEnv) : Bool × Bool × Option DecodeError :=
  if e.sendStatus < 0 then (false, false, some (.sendPacket e.sendStatus))
  else if e.receiveStatus < 0 then
    if e.receiveStatus = ErrorAgain then (true, true, none)
    else (false, false, some (.receiveFrame e.receiveStatus))
  else (true, false, none)

/-- `VideoStream.ReadVideoFrame` control flow from src/unnamed/part_001:
propagate a read error, map `(ok, skip)` to `(nil, true, nil)`, map `!ok`
to `(nil, false, nil)`, and otherwise convert and return the frame
(payload abstracted as the converted RGBA bytes). -/
def VideoStream.ReadVideoFrame (e : ReadEnv) (converted : List Nat) :
    Option (List Nat) × Bool × Option DecodeError :=
  match baseStream.read e with
  | (_, _, some err) => (none, false, some err)
  | (ok, skip, none) =>
    if ok ∧ skip then (none, true, none)
    else if ¬ ok then (none, false, none)
    else (some converted, true, none)

/-- Native-call outcomes of one `AudioStream.ReadAudioFrame` call. -/
structure AudioReadEnv where
  sendStatus : Int
  receiveStatus : Int
  maxBufferSize : Int
  allocOk : Bool
  convertStatus : Int
deriving Repr, DecidableEq

/-- The reusable audio output buffer: whether `s.buffer` is non-nil and the
recorded `s.bufferSize`. -/
structure AudioBufState where
  buffer : Bool
  bufferSize : Int
deriving Repr, DecidableEq

/-- Errors the audio read path can produce: a propagated decode error or
one of the audio conversion failures. -/
inductive AudioReadError
  | decode (err : DecodeError)
  | getBufferSize (status : Int)
  | allocBuffer
  | convert (status : Int)
deriving Repr, DecidableEq

/-- `AudioStream.ReadAudioFrame` from src/unnamed/part_000: after `read`,
compute the needed buffer size; free the buffer when the requirement
exceeds the recorded size; allocate (recording the new size) when the
buffer is nil; resample into it and copy the result out.  Returns the new
buffer state and the `(frame, more, error)` triple, the frame payload
abstracted as the converted bytes. -/
def AudioStream.ReadAudioFrame (st : AudioBufState) (e : AudioReadEnv)
    (converted : List Nat) :
    AudioBufState × (Option (List Nat) × Bool × Option AudioReadError) :=
  match baseStream.read ⟨e.sendStatus, e.receiveStatus⟩ with
  | (_, _, some err) => (st, (none, false, some (.decode err)))
  | (ok, skip, none) =>
    if ok ∧ skip then (st, (none, true, none))
    else if ¬ ok then (st, (none, false, none))
    else if e.maxBufferSize < 0 then
      (st, (none, false, some (.getBufferSize e.maxBufferSize)))
    else
      let st1 : AudioBufState :=
        if e.maxBufferSize > st.bufferSize then
          { buffer := false, bufferSize := st.bufferSize }
        else st
      if st1.buffer = false then
        let st2 : AudioBufState := { buffer := e.allocOk, bufferSize := e.maxBufferSize }
        if ¬ e.allocOk then (st2, (none, false, some .allocBuffer))
        else if e.convertStatus < 0 then
          (st2, (none, false, some (.convert e.convertStatus)))
        else (st2, (some converted, true, none))
      else
        if e.convertStatus < 0 then
          (st1, (none, false, some (.convert e.convertStatus)))
        else (st1, (some converted, true, none))

/-! ## Theorems for claim C3 -/

/-- C3 counterexample: (a) when `avcodec_parameters_to_context` fails with
status `-22`, `OpenDecode` returns an error but the codec context allocated
one step earlier is NOT released — the stream is not left fully closed;
(b) when the scaler allocation fails after a successful base `open`, the
codec context and decode frame remain allocated and the stream even still
reports `opened`. -/
theorem openDecode_leaks_codecCtx :
    ((VideoStream.OpenDecode
        { base := { allocCtxOk := true, paramsStatus := -22, open2Status := 0
                    frameAllocOk := true }
          rgbaAllocOk := true, bufSizeStatus := 0, bufAllocOk := true
          fillStatus := 0, swsOk := true }).2 ≠ none ∧
      (VideoStream.OpenDecode
        { base := { allocCtxOk := true, paramsStatus := -22, open2Status := 0
                    frameAllocOk := true }
          rgbaAllocOk := true, bufSizeStatus := 0, bufAllocOk := true
          fillStatus := 0, swsOk := true }).1.base.codecCtx = true) ∧
    ((VideoStream.OpenDecode
        { base := { allocCtxOk := true, paramsStatus := 0, open2Status := 0
                    frameAllocOk := true }
          rgbaAllocOk := true, bufSizeStatus := 0, bufAllocOk := true
          fillStatus := 0, swsOk := false }).2 ≠ none ∧
      (VideoStream.OpenDecode
        { base := { allocCtxOk := true, paramsStatus := 0, open2Status := 0
                    frameAllocOk := true }
          rgbaAllocOk := true, bufSizeStatus := 0, bufAllocOk := true
          fillStatus := 0, swsOk := false }).1.base =
        { codecCtx := true, frame := true, opened := true }) := by
  decide

/-- C3 (amended): whenever `OpenDecode` fails, the resources allocated by
its own conversion steps (RGBA frame, backing buffer, scaler context) are
all released before the error is returned, but the shared `open` releases
nothing: the codec context remains allocated exactly when its allocation
succeeded, and the `opened` flag (together with the decode frame) remains
set exactly when the base `open` completed before the failing step. -/
theorem openDecode_failure_state (e : OpenDecodeEnv)
    (h : (VideoStream.OpenDecode e).2 ≠ none) :
    (VideoStream.OpenDecode e).1.rgbaFrame = false ∧
    (VideoStream.OpenDecode e).1.rgbaBuf = false ∧
    (VideoStream.OpenDecode e).1.swsCtx = false ∧
    (VideoStream.OpenDecode e).1.base.codecCtx = e.base.allocCtxOk ∧
    ((VideoStream.OpenDecode e).1.base.opened = true ↔
      (baseStream.open e.base).2 = none) ∧
    ((VideoStream.OpenDecode e).1.base.frame = true ↔
      (baseStream.open e.base).2 = none) := by
  rcases e with ⟨⟨ac, ps, os, fa⟩, ra, bs, ba, fs, sw⟩
  revert h
  unfold VideoStream.OpenDecode baseStream.open
  dsimp only
  split_ifs <;> intro h <;> simp_all

/-- Witness for C3's amended theorem at the concrete
parameters-to-context failure. -/
theorem openDecode_failure_state_witness :
    (VideoStream.OpenDecode
      { base := { allocCtxOk := true, paramsStatus := -22, open2Status := 0
                  frameAllocOk := true }
        rgbaAllocOk := true, bufSizeStatus := 0, bufAllocOk := true
        fillStatus := 0, swsOk := true }).1.rgbaFrame = false ∧
    (VideoStream.OpenDecode
      { base := { allocCtxOk := true, paramsStatus := -22, open2Status := 0
                  frameAllocOk := true }
        rgbaAllocOk := true, bufSizeStatus := 0, bufAllocOk := true
        fillStatus := 0, swsOk := true }).1.rgbaBuf = false ∧
    (VideoStream.OpenDecode
      { base := { allocCtxOk := true, paramsStatus := -22, open2Status := 0
                  frameAllocOk := true }
        rgbaAllocOk := true, bufSizeStatus := 0, bufAllocOk := true
        fillStatus := 0, swsOk := true }).1.swsCtx = false ∧
    (VideoStream.OpenDecode
      { base := { allocCtxOk := true, paramsStatus := -22, open2Status := 0
                  frameAllocOk := true }
        rgbaAllocOk := true, bufSizeStatus := 0, bufAllocOk := true
        fillStatus := 0, swsOk := true }).1.base.codecCtx = true ∧
    ((VideoStream.OpenDecode
      { base := { allocCtxOk := true, paramsStatus := -22, open2Status := 0
                  frameAllocOk := true }
        rgbaAllocOk := true, bufSizeStatus := 0, bufAllocOk := true
        fillStatus := 0, swsOk := true }).1.base.opened = true ↔
      (baseStream.open
        { allocCtxOk := true, paramsStatus := -22, open2Status := 0
          frameAllocOk := true }).2 = none) ∧
    ((VideoStream.OpenDecode
      { base := { allocCtxOk := true, paramsStatus := -22, open2Status := 0
                  frameAllocOk := true }
        rgbaAllocOk := true, bufSizeStatus := 0, bufAllocOk := true
        fillStatus := 0, swsOk := true }).1.base.frame = true ↔
      (baseStream.open
        { allocCtxOk := true, paramsStatus := -22, open2Status := 0
          frameAllocOk := true }).2 = none) :=
  openDecode_failure_state
    { base := { allocCtxOk := true, paramsStatus := -22, open2Status := 0
                frameAllocOk := true }
      rgbaAllocOk := true, bufSizeStatus := 0, bufAllocOk := true
      fillStatus := 0, swsOk := true } (by decide)

/-! ## Theorems for claim C4 -/

/-- C4: when the native receive step reports the try-again condition (and
the send step succeeded), the internal `read` returns success with the
`skip` flag set and no error, both `ReadVideoFrame` and `ReadAudioFrame`
return `(nil, true, nil)` (leaving the audio buffer untouched), and that
triple is distinct from a produced-frame result and from the end-of-stream
triple `(nil, false, nil)`. -/
theorem readFrame_try_again (s r : Int) (hs : 0 ≤ s) (hr : r = ErrorAgain)
    (st : AudioBufState) (mbs cs : Int) (ao : Bool) (d : List Nat) :
    baseStream.read ⟨s, r⟩ = (true, true, none) ∧
    VideoStream.ReadVideoFrame ⟨s, r⟩ d = (none, true, none) ∧
    AudioStream.ReadAudioFrame st
        { sendStatus := s, receiveStatus := r, maxBufferSize := mbs
          allocOk := ao, convertStatus := cs } d = (st, (none, true, none)) ∧
    (∀ d' : List Nat,
      ((none, true, none) : Option (List Nat) × Bool × Option DecodeError) ≠
        (some d', true, none)) ∧
    (((none, true, none) : Option (List Nat) × Bool × Option DecodeError) ≠
      (none, false, none)) := by
  have hread : baseStream.read ⟨s, r⟩ = (true, true, none) := by
    unfold baseStream.read
    subst hr
    have h1 : ¬ (s < 0) := by omega
    rw [if_neg h1]
    norm_num [ErrorAgain]
  refine ⟨hread, ?_, ?_, ?_, ?_⟩
  · unfold VideoStream.ReadVideoFrame
    rw [hread]
    simp
  · unfold AudioStream.ReadAudioFrame
    dsimp only
    rw [hread]
    simp
  · intro d'
    simp
  · simp

/-- Witness for C4 at concrete inputs: send status `0`, receive status
`-11` (the try-again code). -/
theorem readFrame_try_again_witness :
    baseStream.read ⟨0, -11⟩ = (true, true, none) ∧
    VideoStream.ReadVideoFrame ⟨0, -11⟩ [1, 2, 3] = (none, true, none) ∧
    AudioStream.ReadAudioFrame ⟨false, 0⟩
        { sendStatus := 0, receiveStatus := -11, maxBufferSize := 4
          allocOk := true, convertStatus := 0 } [1, 2, 3] =
      (⟨false, 0⟩, (none, true, none)) ∧
    (∀ d' : List Nat,
      ((none, true, none) : Option (List Nat) × Bool × Option DecodeError) ≠
        (some d', true, none)) ∧
    (((none, true, none) : Option (List Nat) × Bool × Option DecodeError) ≠
      (none, false, none)) :=
  readFrame_try_again 0 (-11) (by decide) (by decide) ⟨false, 0⟩ 4 0 true [1, 2, 3]

/-! ## Theorems for claim C5 -/

/-- First component of a two-way branch over pairs sharing the first entry. -/
theorem fst_ite_pair {α β : Type} (c : Prop) [Decidable c] (a : α) (x y : β) :
    (if c then (a, x) else (a, y)).1 = a := by
  split_ifs <;> rfl

/-- First component of a three-way branch over pairs sharing the first entry. -/
theorem fst_ite_triple {α β : Type} (c1 c2 : Prop) [Decidable c1] [Decidable c2]
    (a : α) (x y z : β) :
    (if c1 then (a, x) else if c2 then (a, y) else (a, z)).1 = a := by
  split_ifs <;> rfl

/-- On non-negative send and receive statuses, `read` reports a produced
frame: success with the `skip` flag cleared and no error. -/
theorem read_produced (s r : Int) (hs : 0 ≤ s) (hr : 0 ≤ r) :
    baseStream.read ⟨s, r⟩ = (true, false, none) := by
  unfold baseStream.read
  dsimp only
  rw [if_neg (by omega), if_neg (by omega)]

/-- Characterization of the buffer state after one `ReadAudioFrame` call:
it changes only when the read produced a frame and the required size is
non-negative, in which case the buffer is replaced (at the required size)
exactly when the requirement exceeds the recorded size or no buffer was
allocated. -/
theorem readAudioFrame_bufferState (st : AudioBufState) (e : AudioReadEnv)
    (d : List Nat) :
    (AudioStream.ReadAudioFrame st e d).1 =
      if baseStream.read ⟨e.sendStatus, e.receiveStatus⟩ = (true, false, none) ∧
          0 ≤ e.maxBufferSize ∧
          (st.bufferSize < e.maxBufferSize ∨ st.buffer = false) then
        { buffer := e.allocOk, bufferSize := e.maxBufferSize }
      else st := by
  rcases e with ⟨ss, rs, mbs, ao, cs⟩
  rcases st with ⟨b, bsz⟩
  unfold AudioStream.ReadAudioFrame
  dsimp only
  rcases hr : baseStream.read ⟨ss, rs⟩ with ⟨ok, skip, err⟩
  rcases err with _ | err
  · rcases ok with _ | _
    · dsimp only
      rw [if_neg (by simp), if_pos (by simp), if_neg (by simp)]
    · rcases skip with _ | _
      · dsimp only
        rw [if_neg (by simp)]
        rw [if_neg (by simp)]
        by_cases h4 : mbs < 0
        · rw [if_pos h4]
          dsimp only
          rw [if_neg (by rintro ⟨-, h, -⟩; omega)]
        · rw [if_neg h4]
          by_cases h5 : mbs > bsz
          · rw [if_pos h5]
            dsimp only
            rw [if_pos rfl]
            rw [fst_ite_triple]
            rw [if_pos ⟨rfl, by omega, Or.inl h5⟩]
          · rw [if_neg h5]
            dsimp only
            rcases b with _ | _
            · rw [if_pos rfl]
              rw [fst_ite_triple]
              rw [if_pos ⟨rfl, by omega, Or.inr rfl⟩]
            · rw [if_neg (by simp)]
              rw [fst_ite_pair]
              rw [if_neg ?_]
              rintro ⟨-, -, hc | hc⟩
              · omega
              · exact absurd hc (by simp)
      · dsimp only
        rw [if_pos ⟨rfl, rfl⟩]
        rw [if_neg (by simp)]
  · dsimp only
    rw [if_neg (by simp)]

/-- C5: within one open session (the buffer is allocated and its recorded
size is non-negative), the audio output buffer size is non-decreasing
across a `ReadAudioFrame` call; when the required size does not exceed the
current size the state is reused completely unchanged; and when it does
exceed it (and the read produced a frame) the buffer is freed and
reallocated at exactly the required size. -/
theorem audioBuffer_monotone (st : AudioBufState) (e : AudioReadEnv)
    (d : List Nat) (hbuf : st.buffer = true) (hsz : 0 ≤ st.bufferSize) :
    st.bufferSize ≤ (AudioStream.ReadAudioFrame st e d).1.bufferSize ∧
    (e.maxBufferSize ≤ st.bufferSize →
      (AudioStream.ReadAudioFrame st e d).1 = st) ∧
    (st.bufferSize < e.maxBufferSize → 0 ≤ e.sendStatus → 0 ≤ e.receiveStatus →
      (AudioStream.ReadAudioFrame st e d).1 =
        { buffer := e.allocOk, bufferSize := e.maxBufferSize }) := by
  rw [readAudioFrame_bufferState]
  refine ⟨?_, ?_, ?_⟩
  · split_ifs with h
    · rcases h with ⟨-, -, hc | hc⟩
      · dsimp only
        omega
      · rw [hbuf] at hc
        exact absurd hc (by simp)
    · exact le_refl _
  · intro hle
    rw [if_neg ?_]
    rintro ⟨-, -, hc | hc⟩
    · omega
    · rw [hbuf] at hc
      exact absurd hc (by simp)
  · intro hlt hs hr
    rw [if_pos ⟨read_produced _ _ hs hr, by omega, Or.inl hlt⟩]

/-- Witness for C5 at concrete states: a buffer of recorded size `100` with
requirement `40` is reused unchanged, and with requirement `200` is
reallocated to size `200`. -/
theorem audioBuffer_monotone_witness :
    ((100 : Int) ≤
      (AudioStream.ReadAudioFrame ⟨true, 100⟩
        { sendStatus := 0, receiveStatus := 0, maxBufferSize := 40
          allocOk := true, convertStatus := 0 } [7]).1.bufferSize ∧
      (AudioStream.ReadAudioFrame ⟨true, 100⟩
        { sendStatus := 0, receiveStatus := 0, maxBufferSize := 40
          allocOk := true, convertStatus := 0 } [7]).1 = ⟨true, 100⟩) ∧
    (AudioStream.ReadAudioFrame ⟨true, 100⟩
        { sendStatus := 0, receiveStatus := 0, maxBufferSize := 200
          allocOk := true, convertStatus := 0 } [7]).1 =
      { buffer := true, bufferSize := 200 } := by
  refine ⟨⟨?_, ?_⟩, ?_⟩
  · exact (audioBuffer_monotone ⟨true, 100⟩
      { sendStatus := 0, receiveStatus := 0, maxBufferSize := 40
        allocOk := true, convertStatus := 0 } [7] rfl (by decide)).1
  · exact (audioBuffer_monotone ⟨true, 100⟩
      { sendStatus := 0, receiveStatus := 0, maxBufferSize := 40
        allocOk := true, convertStatus := 0 } [7] rfl (by decide)).2.1 (by decide)
  · exact (audioBuffer_monotone ⟨true, 100⟩
      { sendStatus := 0, receiveStatus := 0, maxBufferSize := 200
        allocOk := true, convertStatus := 0 } [7] rfl (by decide)).2.2 (by decide)
      (by decide) (by decide)

/-! ## baseStream.RemoveFilter / Filter (src/videoframe.go 294-313) -/

/-- The filter-related fields of `baseStream`: whether the filter context
and the two reusable filter packets are allocated, and the recorded filter
argument string. -/
structure FilterState where
  filterCtx : Bool
  filterInPacket : Bool
  filterOutPacket : Bool
  filterArgs : String
deriving Repr, DecidableEq

/-- The only error `RemoveFilter` can produce. -/
inductive FilterError
  | noFilter
deriving Repr, DecidableEq

/-- `baseStream.RemoveFilter` from src/videoframe.go: errors out when no
filter context is present; otherwise frees the filter context and both
reusable filter packets, nil-ing all three pointers.  It does not touch
`filterArgs`. -/
def baseStream.RemoveFilter (s : FilterState) : FilterState × Option FilterError :=
  if s.filterCtx = false then (s, some .noFilter)
  else
    ({ filterCtx := false, filterInPacket := false, filterOutPacket := false
       filterArgs := s.filterArgs }, none)

/-- `baseStream.Filter` from src/videoframe.go: returns the recorded filter
argument string (documented to be `""` when no filter is applied). -/
def baseStream.Filter (s : FilterState) : String := s.filterArgs

/-- A stream with a bitstream filter applied (filter context and both
packet buffers allocated, argument string recorded, as `ApplyFilter`
leaves them). -/
def filterAppliedState : FilterState :=
  { filterCtx := true, filterInPacket := true, filterOutPacket := true
    filterArgs := "h264_mp4toannexb" }

/-! ## Frame payload ownership (src/unnamed/part_001 114-129,
src/videoframe.go 20-33, src/unnamed/part_000 167-181) -/

/-- A heap of numbered byte buffers: `bufs i` is the contents of buffer
`i`, and buffers `≥ next` are unallocated.  Models the native scratch
buffers and the Go slices they are copied into. -/
structure MHeap (α : Type) where
  bufs : Nat → List α
  next : Nat

/-- Overwrite the contents of buffer `i` (what `sws_scale`/`swr_convert`
do to the stream's reusable scratch buffer). -/
def MHeap.write {α : Type} (h : MHeap α) (i : Nat) (d : List α) : MHeap α :=
  { bufs := fun j => if j = i then d else h.bufs j, next := h.next }

/-- Allocate a fresh buffer holding a copy of the contents of buffer
`src` (what `C.GoBytes` and `copy(dst, src)` into a fresh slice do);
returns the new heap and the fresh buffer's number. -/
def MHeap.allocCopy {α : Type} (h : MHeap α) (src : Nat) : MHeap α × Nat :=
  ({ bufs := fun j => if j = h.next then h.bufs src else h.bufs j
     next := h.next + 1 }, h.next)

/-- A frame's handle to the buffer holding its byte payload. -/
structure FrameRef where
  dataBuf : Nat
deriving Repr, DecidableEq

/-- `Frame.Data`: the bytes of the buffer the frame owns. -/
def Frame.Data {α : Type} (h : MHeap α) (f : FrameRef) : List α :=
  h.bufs f.dataBuf

/-- The memory path of a successful `VideoStream.ReadVideoFrame`
(src/unnamed/part_001) followed by `newVideoFrame` (src/videoframe.go):
`sws_scale` writes the converted picture into the stream's reusable RGBA
buffer, `C.GoBytes` copies those bytes into a fresh Go slice, and
`newVideoFrame` copies that slice into the pixel buffer of a freshly
allocated image, which the frame owns. -/
def VideoStream.readVideoFrameCopy (h : MHeap Nat) (rgbaBuf : Nat)
    (converted : List Nat) : MHeap Nat × FrameRef :=
  let h1 := h.write rgbaBuf converted
  let r2 := h1.allocCopy rgbaBuf
  let r3 := r2.1.allocCopy r2.2
  (r3.1, ⟨r3.2⟩)

/-- The memory path of a successful `AudioStream.ReadAudioFrame`
(src/unnamed/part_000): `swr_convert` writes the resampled samples into
the stream's reusable output buffer and `C.GoBytes` copies them into a
fresh Go slice, which the frame owns (`newAudioFrame` stores it). -/
def AudioStream.readAudioFrameCopy (h : MHeap Nat) (outBuf : Nat)
    (converted : List Nat) : MHeap Nat × FrameRef :=
  let h1 := h.write outBuf converted
  let r2 := h1.allocCopy outBuf
  (r2.1, ⟨r2.2⟩)

/-! ## Media.Streams (src/media.go 93-98) -/

/-- `Media.Streams`: allocates a fresh slice of the same length and copies
the internal stream list into it (`make` + `copy`), returning the copy. -/
def Media.Streams {α : Type} (h : MHeap α) (internalBuf : Nat) : MHeap α × Nat :=
  h.allocCopy internalBuf

/-! ## Media.findStreams (src/media.go 166-221) -/

/-- `AVMEDIA_TYPE_VIDEO` from the native enum. -/
def AVMEDIA_TYPE_VIDEO : Int := 0

/-- `AVMEDIA_TYPE_AUDIO` from the native enum. -/
def AVMEDIA_TYPE_AUDIO : Int := 1

/-- The per-sub-stream native metadata `findStreams` consults. -/
structure AVStreamInfo where
  codecId : Int
  codecType : Int
deriving Repr, DecidableEq

/-- The stream variant `findStreams` constructs for a sub-stream. -/
inductive StreamKind
  | video
  | audio
  | unknown
deriving Repr, DecidableEq

/-- The classification of one sub-stream inside the `findStreams` loop:
no decoder for the codec id gives `UnknownStream`; otherwise the codec
type selects `VideoStream`, `AudioStream`, or (default) `UnknownStream`.
`findDecoder` models `avcodec_find_decoder` returning non-nil. -/
def classifyStream (findDecoder : Int → Bool) (ss : AVStreamInfo) : StreamKind :=
  if findDecoder ss.codecId = false then .unknown
  else if ss.codecType = AVMEDIA_TYPE_VIDEO then .video
  else if ss.codecType = AVMEDIA_TYPE_AUDIO then .audio
  else .unknown

/-- `Media.findStreams` from src/media.go: iterates over the native
sub-streams in order, appending the classification of each to the streams
list. -/
def Media.findStreams (findDecoder : Int → Bool) (inner : List AVStreamInfo) :
    List StreamKind :=
  inner.foldl (fun streams ss => streams ++ [classifyStream findDecoder ss]) []

/-! ## baseStream.Duration (src/videoframe.go 218-230) -/

/-- `baseStream.Duration` from src/videoframe.go: the native stream
duration is clamped to zero when negative, then multiplied by the time
base factor `tbNum/tbDen`.  The Go code computes the factor in `float64`;
the model uses exact rationals, which agrees in sign (IEEE rounding of
these non-negative products is sign-preserving). -/
def baseStream.Duration (dur tbNum tbDen : Int) : ℚ :=
  let d : Int := if dur < 0 then 0 else dur
  (d : ℚ) * ((tbNum : ℚ) / (tbDen : ℚ))

/-! ## Theorems for claim C6 -/

/-- C6: on a stream with an applied filter, `RemoveFilter` succeeds,
releases the filter context and both reusable filter packet buffers, and a
second `RemoveFilter` fails with the no-filter error — but `Filter()`
afterwards still reports the previously applied filter string instead of
`""` (no filter applied), because `RemoveFilter` never clears
`filterArgs`.  This contradicts `Filter`'s documented contract. -/
theorem removeFilter_keeps_filterArgs :
    (baseStream.RemoveFilter filterAppliedState).2 = none ∧
    (baseStream.RemoveFilter filterAppliedState).1.filterCtx = false ∧
    (baseStream.RemoveFilter filterAppliedState).1.filterInPacket = false ∧
    (baseStream.RemoveFilter filterAppliedState).1.filterOutPacket = false ∧
    baseStream.RemoveFilter (baseStream.RemoveFilter filterAppliedState).1 =
      ((baseStream.RemoveFilter filterAppliedState).1, some .noFilter) ∧
    baseStream.Filter (baseStream.RemoveFilter filterAppliedState).1 =
      "h264_mp4toannexb" ∧
    baseStream.Filter (baseStream.RemoveFilter filterAppliedState).1 ≠ "" := by
  refine ⟨rfl, rfl, rfl, rfl, rfl, rfl, ?_⟩
  decide

/-! ## Theorems for claim C7 -/

/-- C7: a frame returned by `ReadVideoFrame` or `ReadAudioFrame` owns a
freshly copied payload: right after the call its `Data` equals the
converted bytes, and a subsequent read on the same stream — which
overwrites the reusable scratch buffer and allocates new copies — leaves
the first frame's `Data` unchanged.  `hs` states that the stream's scratch
buffer is an allocated buffer of the heap. -/
theorem frame_data_owned (h : MHeap Nat) (scratch : Nat) (d1 d2 : List Nat)
    (hs : scratch < h.next) :
    (Frame.Data (VideoStream.readVideoFrameCopy h scratch d1).1
      (VideoStream.readVideoFrameCopy h scratch d1).2 = d1 ∧
     Frame.Data
      (VideoStream.readVideoFrameCopy
        (VideoStream.readVideoFrameCopy h scratch d1).1 scratch d2).1
      (VideoStream.readVideoFrameCopy h scratch d1).2 = d1) ∧
    (Frame.Data (AudioStream.readAudioFrameCopy h scratch d1).1
      (AudioStream.readAudioFrameCopy h scratch d1).2 = d1 ∧
     Frame.Data
      (AudioStream.readAudioFrameCopy
        (AudioStream.readAudioFrameCopy h scratch d1).1 scratch d2).1
      (AudioStream.readAudioFrameCopy h scratch d1).2 = d1) := by
  unfold VideoStream.readVideoFrameCopy AudioStream.readAudioFrameCopy
    MHeap.write MHeap.allocCopy Frame.Data
  dsimp only
  refine ⟨⟨?_, ?_⟩, ⟨?_, ?_⟩⟩
  · split_ifs <;> first | rfl | omega
  · split_ifs <;> first | rfl | omega
  · split_ifs <;> first | rfl | omega
  · split_ifs <;> first | rfl | omega

/-- Witness for C7 on a concrete heap with one allocated scratch buffer
and two successive payloads. -/
theorem frame_data_owned_witness :
    (Frame.Data (VideoStream.readVideoFrameCopy ⟨fun _ => [], 1⟩ 0 [1, 2]).1
      (VideoStream.readVideoFrameCopy ⟨fun _ => [], 1⟩ 0 [1, 2]).2 = [1, 2] ∧
     Frame.Data
      (VideoStream.readVideoFrameCopy
        (VideoStream.readVideoFrameCopy ⟨fun _ => [], 1⟩ 0 [1, 2]).1 0 [3, 4]).1
      (VideoStream.readVideoFrameCopy ⟨fun _ => [], 1⟩ 0 [1, 2]).2 = [1, 2]) ∧
    (Frame.Data (AudioStream.readAudioFrameCopy ⟨fun _ => [], 1⟩ 0 [1, 2]).1
      (AudioStream.readAudioFrameCopy ⟨fun _ => [], 1⟩ 0 [1, 2]).2 = [1, 2] ∧
     Frame.Data
      (AudioStream.readAudioFrameCopy
        (AudioStream.readAudioFrameCopy ⟨fun _ => [], 1⟩ 0 [1, 2]).1 0 [3, 4]).1
      (AudioStream.readAudioFrameCopy ⟨fun _ => [], 1⟩ 0 [1, 2]).2 = [1, 2]) :=
  frame_data_owned ⟨fun _ => [], 1⟩ 0 [1, 2] [3, 4] (by decide)

/-! ## Theorems for claim C8 -/

/-- The `findStreams` loop is append-only over the input order. -/
theorem findStreams_eq_map (findDecoder : Int → Bool)
    (inner : List AVStreamInfo) :
    Media.findStreams findDecoder inner =
      inner.map (classifyStream findDecoder) := by
  have key : ∀ (l : List AVStreamInfo) (acc : List StreamKind),
      List.foldl (fun streams ss => streams ++ [classifyStream findDecoder ss])
        acc l = acc ++ l.map (classifyStream findDecoder) := by
    intro l
    induction l with
    | nil => intro acc; simp
    | cons x xs ih =>
      intro acc
      simp only [List.foldl_cons, List.map_cons]
      rw [ih]
      simp
  simpa using key inner []

/-- C8: stream discovery classifies each native sub-stream — no decoder
gives `unknown`; with a decoder, codec type video gives `video`, audio
gives `audio`, and anything else gives `unknown` — and the resulting list
preserves the original sub-stream order: it has the same length and
entry `i` is the classification of native sub-stream `i`. -/
theorem findStreams_classification (findDecoder : Int → Bool)
    (inner : List AVStreamInfo) (i : Nat) (ss : AVStreamInfo) :
    (Media.findStreams findDecoder inner).length = inner.length ∧
    (Media.findStreams findDecoder inner)[i]? =
      (inner[i]?).map (classifyStream findDecoder) ∧
    (classifyStream findDecoder ss = .video ↔
      findDecoder ss.codecId = true ∧ ss.codecType = AVMEDIA_TYPE_VIDEO) ∧
    (classifyStream findDecoder ss = .audio ↔
      findDecoder ss.codecId = true ∧ ss.codecType = AVMEDIA_TYPE_AUDIO) ∧
    (classifyStream findDecoder ss = .unknown ↔
      findDecoder ss.codecId = false ∨
        (ss.codecType ≠ AVMEDIA_TYPE_VIDEO ∧ ss.codecType ≠ AVMEDIA_TYPE_AUDIO)) := by
  refine ⟨?_, ?_, ?_, ?_, ?_⟩
  · rw [findStreams_eq_map, List.length_map]
  · rw [findStreams_eq_map, List.getElem?_map]
  · unfold classifyStream
    split_ifs <;> simp_all [AVMEDIA_TYPE_VIDEO, AVMEDIA_TYPE_AUDIO]
  · unfold classifyStream
    split_ifs <;> simp_all [AVMEDIA_TYPE_VIDEO, AVMEDIA_TYPE_AUDIO]
  · unfold classifyStream
    split_ifs <;> simp_all [AVMEDIA_TYPE_VIDEO, AVMEDIA_TYPE_AUDIO]

/-! ## Theorems for claim C9 -/

/-- C9: for a non-negative time base (`0 ≤ tbNum`, `0 < tbDen` — always the
case for real streams), `Duration` never returns a negative value, and a
negative native duration is clamped to zero, yielding exactly `0`. -/
theorem duration_nonneg (dur tbNum tbDen : Int) (hn : 0 ≤ tbNum)
    (hd : 0 < tbDen) :
    0 ≤ baseStream.Duration dur tbNum tbDen ∧
    (dur < 0 → baseStream.Duration dur tbNum tbDen = 0) := by
  unfold baseStream.Duration
  constructor
  · apply mul_nonneg
    · split_ifs with h
      · norm_num
      · exact_mod_cast le_of_not_lt h
    · apply div_nonneg
      · exact_mod_cast hn
      · exact_mod_cast le_of_lt hd
  · intro h
    rw [if_pos h]
    norm_num

/-- Witness for C9 at a negative native duration `-7` with time base
`1/25`: the result is non-negative, and in fact zero. -/
theorem duration_nonneg_witness :
    (0 ≤ baseStream.Duration (-7) 1 25 ∧
      ((-7 : Int) < 0 → baseStream.Duration (-7) 1 25 = 0)) ∧
    baseStream.Duration (-7) 1 25 = 0 := by
  have h := duration_nonneg (-7) 1 25 (by decide) (by decide)
  exact ⟨h, h.2 (by decide)⟩

/-! ## Theorems for claim C10 -/

/-- C10: `Media.Streams` returns a fresh copy of the internal stream list:
the returned slice is a different buffer with equal contents; overwriting
the returned slice leaves the internal list unchanged; and two successive
calls return equal contents in two distinct buffers.  `hi` states that the
internal list is an allocated buffer of the heap. -/
theorem streams_fresh_copy {α : Type} (h : MHeap α) (internalBuf : Nat)
    (d : List α) (hi : internalBuf < h.next) :
    (Media.Streams h internalBuf).2 ≠ internalBuf ∧
    (Media.Streams h internalBuf).1.bufs (Media.Streams h internalBuf).2 =
      (Media.Streams h internalBuf).1.bufs internalBuf ∧
    (((Media.Streams h internalBuf).1.write (Media.Streams h internalBuf).2 d).bufs
        internalBuf = h.bufs internalBuf) ∧
    ((Media.Streams (Media.Streams h internalBuf).1 internalBuf).2 ≠
      (Media.Streams h internalBuf).2 ∧
     (Media.Streams (Media.Streams h internalBuf).1 internalBuf).1.bufs
        (Media.Streams (Media.Streams h internalBuf).1 internalBuf).2 =
      (Media.Streams (Media.Streams h internalBuf).1 internalBuf).1.bufs
        (Media.Streams h internalBuf).2) := by
  unfold Media.Streams MHeap.allocCopy MHeap.write
  dsimp only
  refine ⟨by omega, ?_, ?_, by omega, ?_⟩
  · split_ifs <;> first | rfl | omega
  · split_ifs <;> first | rfl | omega
  · split_ifs <;> first | rfl | omega

/-- Witness for C10 on a concrete heap whose internal stream list is
buffer `0` holding `[5, 6]`. -/
theorem streams_fresh_copy_witness :
    (Media.Streams (⟨fun _ => [5, 6], 1⟩ : MHeap Nat) 0).2 ≠ 0 ∧
    (Media.Streams (⟨fun _ => [5, 6], 1⟩ : MHeap Nat) 0).1.bufs
        (Media.Streams (⟨fun _ => [5, 6], 1⟩ : MHeap Nat) 0).2 =
      (Media.Streams (⟨fun _ => [5, 6], 1⟩ : MHeap Nat) 0).1.bufs 0 ∧
    (((Media.Streams (⟨fun _ => [5, 6], 1⟩ : MHeap Nat) 0).1.write
        (Media.Streams (⟨fun _ => [5, 6], 1⟩ : MHeap Nat) 0).2 []).bufs 0 =
      (⟨fun _ => [5, 6], 1⟩ : MHeap Nat).bufs 0) ∧
    ((Media.Streams (Media.Streams (⟨fun _ => [5, 6], 1⟩ : MHeap Nat) 0).1 0).2 ≠
      (Media.Streams (⟨fun _ => [5, 6], 1⟩ : MHeap Nat) 0).2 ∧
     (Media.Streams (Media.Streams (⟨fun _ => [5, 6], 1⟩ : MHeap Nat) 0).1 0).1.bufs
        (Media.Streams (Media.Streams (⟨fun _ => [5, 6], 1⟩ : MHeap Nat) 0).1 0).2 =
      (Media.Streams (Media.Streams (⟨fun _ => [5, 6], 1⟩ : MHeap Nat) 0).1 0).1.bufs
        (Media.Streams (⟨fun _ => [5, 6], 1⟩ : MHeap Nat) 0).2) :=
  streams_fresh_copy (⟨fun _ => [5, 6], 1⟩ : MHeap Nat) 0 [] (by decide)

end Reisen
